import Mathlib

/- Verification of fs/btrfs/sysfs.c, a btrfs sysfs introspection registry.
The source file contains two successive designs of the same subsystem:
a first design (static top-level kobjects, per-node completion objects,
blocking teardown) and a second design (dynamically allocated nodes, no
completion objects).  Definitions suffixed _v1 embed the first design,
_v2 the second.  Kernel primitives that are not part of the excerpt
(kref/kobject reference counting, completions, the sysfs name-resolution
layer) are modelled from the specification where a claim needs them. -/

namespace BtrfsSysfs

/- Errno codes used by the source: EIO = 5, ENOENT = 2, EINVAL = 22.
Dispatch failures are returned as negative errno values. -/

def eio : Int := 5

def enoent : Int := 2

def einval : Int := 22

/-- Readable permission bit of a sysfs mode word (S_IRUSR, octal 0400). -/
def readable (m : Nat) : Bool := m.testBit 8

/-- Translation of struct btrfs_device.  Modelled from the spec: struct
btrfs_device itself lives in volumes.h, which is not part of the excerpt;
the spec declares the five error counters as unsigned (uint, RO) fields.
Each cell stores a 32-bit value; accesses reduce the stored Nat mod 2^32. -/
structure BtrfsDevice where
  cnt_write_io_errs : Nat
  cnt_read_io_errs : Nat
  cnt_flush_io_errs : Nat
  cnt_corruption_errs : Nat
  cnt_generation_errs : Nat
deriving DecidableEq

/-- Field tokens standing for the byte offsets produced by
offsetof(struct btrfs_device, <field>.counter) in BTRFS_DEVICE_OFFSET_ATTR.
The object layout is not part of the excerpt, so offsets are abstracted to
the field they address; distinctness of offsets holds by construction. -/
inductive DevField where
  | writeErrs
  | readErrs
  | flushErrs
  | corruptionErrs
  | generationErrs
deriving DecidableEq

/-- Translation of the offset dereference in btrfs_device_show:
device_attr = (int *)(((char *) device) + attr->offset); *device_attr. -/
def readField (d : BtrfsDevice) : DevField → Nat
  | .writeErrs => d.cnt_write_io_errs
  | .readErrs => d.cnt_read_io_errs
  | .flushErrs => d.cnt_flush_io_errs
  | .corruptionErrs => d.cnt_corruption_errs
  | .generationErrs => d.cnt_generation_errs

/-- Width of the counter cell: the source reads it through an int pointer,
so the cell is 32 bits wide. -/
def u32 : Nat := 2 ^ 32

/-- Reading a 32-bit cell through (int *): the stored bit pattern is
reinterpreted as a signed two-complement 32-bit integer. -/
def intOfU32 (v : Nat) : Int :=
  if v % u32 < 2 ^ 31 then ((v % u32 : Nat) : Int) else ((v % u32 : Nat) : Int) - (u32 : Int)

/-- Translation of sprintf(buf, "%d\n", x): decimal rendering of a signed
int followed by a single newline. -/
def sprintfD (x : Int) : String := toString x ++ "\n"

/-- Translation of btrfs_device_show (first design): reads the int field at
attr->offset inside the device and formats it with "%d\n". -/
def btrfs_device_show (d : BtrfsDevice) (off : DevField) : String :=
  sprintfD (intOfU32 (readField d off))

/-- Translation of struct btrfs_device_attr of the first design, which
carries an offset member produced by BTRFS_DEVICE_OFFSET_ATTR. -/
structure DeviceOffsetAttr where
  name : String
  mode : Nat
  showFn : Option (BtrfsDevice → DevField → String)
  storeFn : Option (BtrfsDevice → DevField → String → Int)
  offset : DevField

/-- Translation of BTRFS_DEVICE_OFFSET_ATTR(cnt_write_io_errs,0444,
btrfs_device_show,NULL,cnt_write_io_errs.counter). -/
def btrfs_dev_attr_cnt_write_io_errs : DeviceOffsetAttr :=
  ⟨"cnt_write_io_errs", 0o444, some btrfs_device_show, none, .writeErrs⟩

def btrfs_dev_attr_cnt_read_io_errs : DeviceOffsetAttr :=
  ⟨"cnt_read_io_errs", 0o444, some btrfs_device_show, none, .readErrs⟩

def btrfs_dev_attr_cnt_flush_io_errs : DeviceOffsetAttr :=
  ⟨"cnt_flush_io_errs", 0o444, some btrfs_device_show, none, .flushErrs⟩

def btrfs_dev_attr_cnt_corruption_errs : DeviceOffsetAttr :=
  ⟨"cnt_corruption_errs", 0o444, some btrfs_device_show, none, .corruptionErrs⟩

def btrfs_dev_attr_cnt_generation_errs : DeviceOffsetAttr :=
  ⟨"cnt_generation_errs", 0o444, some btrfs_device_show, none, .generationErrs⟩

/-- Translation of btrfs_device_default_attrs of the first design. -/
def btrfs_device_offset_attrs : List DeviceOffsetAttr :=
  [btrfs_dev_attr_cnt_write_io_errs,
   btrfs_dev_attr_cnt_read_io_errs,
   btrfs_dev_attr_cnt_flush_io_errs,
   btrfs_dev_attr_cnt_corruption_errs,
   btrfs_dev_attr_cnt_generation_errs]

/-- Translation of btrfs_device_attr_show (first design): if the attribute
has no show accessor the dispatch returns -EIO without calling anything;
otherwise the accessor runs on the device and the attribute offset. -/
def btrfs_device_attr_show_v1 (a : DeviceOffsetAttr) (d : BtrfsDevice) : Except Int String :=
  match a.showFn with
  | none => .error (-eio)
  | some f => .ok (f d a.offset)

/-- Translation of btrfs_device_attr_store (first design). -/
def btrfs_device_attr_store_v1 (a : DeviceOffsetAttr) (d : BtrfsDevice) (buf : String) :
    Except Int Int :=
  match a.storeFn with
  | none => .error (-eio)
  | some f => .ok (f d a.offset buf)

/-- Translation of struct kobject as used by the second design: the two
pieces of kobject state the source touches are state_initialized (checked
by btrfs_create_device) and the reference count (kobject_get/put). -/
structure Kobject where
  state_initialized : Bool
  refcount : Nat
deriving DecidableEq

/-- Translation of struct btrfs_kobject of the second design (kobject plus
an unused void pointer). -/
structure BtrfsKobject where
  kobj : Kobject
deriving DecidableEq

/-- Translation of struct btrfs_kobject_attr: name and mode from struct
attribute, plus optional show and store accessors (NULL = none). -/
structure KobjAttr where
  name : String
  mode : Nat
  showFn : Option (BtrfsKobject → String)
  storeFn : Option (BtrfsKobject → String → Int)

/-- Translation of struct btrfs_device_attr of the second design (no
offset member). -/
structure DeviceAttr where
  name : String
  mode : Nat
  showFn : Option (Kobject → String)
  storeFn : Option (Kobject → String → Int)

/-- Translation of btrfs_kobject_attr_show (identical in both designs):
a NULL show accessor yields -EIO; the function pointer is dereferenced
only in the other branch. -/
def btrfs_kobject_attr_show (k : BtrfsKobject) (a : KobjAttr) : Except Int String :=
  match a.showFn with
  | none => .error (-eio)
  | some f => .ok (f k)

/-- Translation of btrfs_kobject_attr_store (identical in both designs). -/
def btrfs_kobject_attr_store (k : BtrfsKobject) (a : KobjAttr) (buf : String) :
    Except Int Int :=
  match a.storeFn with
  | none => .error (-eio)
  | some f => .ok (f k buf)

/-- Translation of btrfs_device_attr_show of the second design. -/
def btrfs_device_attr_show_v2 (k : Kobject) (a : DeviceAttr) : Except Int String :=
  match a.showFn with
  | none => .error (-eio)
  | some f => .ok (f k)

/-- Translation of btrfs_device_attr_store of the second design. -/
def btrfs_device_attr_store_v2 (k : Kobject) (a : DeviceAttr) (buf : String) :
    Except Int Int :=
  match a.storeFn with
  | none => .error (-eio)
  | some f => .ok (f k buf)

/- Placeholder attributes of the second design: declared with readable
permission bits but a NULL show accessor. -/

/-- Translation of BTRFS_DEVICE_ATTR(uuid,0444,NULL,NULL). -/
def btrfs_attr_uuid : DeviceAttr := ⟨"uuid", 0o444, none, none⟩

/-- Translation of BTRFS_DEVICE_ATTR(label,0444,NULL,NULL). -/
def btrfs_attr_label : DeviceAttr := ⟨"label", 0o444, none, none⟩

/-- Translation of BTRFS_ATTR(dummy,0444,NULL,NULL) (health directory). -/
def btrfs_attr_dummy : KobjAttr := ⟨"dummy", 0o444, none, none⟩

/-- Translation of BTRFS_ATTR(dummy1,0444,NULL,NULL) (devices directory). -/
def btrfs_attr_dummy1 : KobjAttr := ⟨"dummy1", 0o444, none, none⟩

/-- Translation of BTRFS_ATTR(num_devices,0444,NULL,NULL) (info directory). -/
def btrfs_attr_num_devices : KobjAttr := ⟨"num_devices", 0o444, none, none⟩

/-- Modelled from the spec: device_stats in the second design resolves the
backing btrfs_device record from the superblock kobject through
btrfs_find_device, whose implementation (volumes.c) is not part of the
excerpt; the resolution is passed in as an explicit function. -/
def device_stats (resolve : Kobject → BtrfsDevice) (k : Kobject) : BtrfsDevice :=
  resolve k

/-- Translation of device_write_io_err_show (second design). -/
def device_write_io_err_show (resolve : Kobject → BtrfsDevice) (k : Kobject) : String :=
  sprintfD (intOfU32 (device_stats resolve k).cnt_write_io_errs)

/-- Translation of device_read_io_err_show (second design). -/
def device_read_io_err_show (resolve : Kobject → BtrfsDevice) (k : Kobject) : String :=
  sprintfD (intOfU32 (device_stats resolve k).cnt_read_io_errs)

/-- Translation of device_flush_io_err_show (second design). -/
def device_flush_io_err_show (resolve : Kobject → BtrfsDevice) (k : Kobject) : String :=
  sprintfD (intOfU32 (device_stats resolve k).cnt_flush_io_errs)

/-- Translation of device_corruption_err_show (second design). -/
def device_corruption_err_show (resolve : Kobject → BtrfsDevice) (k : Kobject) : String :=
  sprintfD (intOfU32 (device_stats resolve k).cnt_corruption_errs)

/-- Translation of device_generation_err_show (second design). -/
def device_generation_err_show (resolve : Kobject → BtrfsDevice) (k : Kobject) : String :=
  sprintfD (intOfU32 (device_stats resolve k).cnt_generation_errs)

/-- Translation of btrfs_device_default_attrs of the second design:
uuid and label are unwired placeholders, the five counters are wired to
their show functions, all stores are NULL. -/
def btrfs_device_default_attrs_v2 (resolve : Kobject → BtrfsDevice) : List DeviceAttr :=
  [btrfs_attr_uuid,
   btrfs_attr_label,
   ⟨"cnt_write_io_errs", 0o444, some (device_write_io_err_show resolve), none⟩,
   ⟨"cnt_read_io_errs", 0o444, some (device_read_io_err_show resolve), none⟩,
   ⟨"cnt_flush_io_errs", 0o444, some (device_flush_io_err_show resolve), none⟩,
   ⟨"cnt_corruption_errs", 0o444, some (device_corruption_err_show resolve), none⟩,
   ⟨"cnt_generation_errs", 0o444, some (device_generation_err_show resolve), none⟩]

/-- Modelled from the spec: sysfs name resolution (the kernel sysfs core,
not part of the excerpt) looks the requested attribute name up in the node
type descriptor table by a linear scan with exact string equality before
invoking any accessor. -/
def sysfs_lookup (attrs : List DeviceAttr) (nm : String) : Option DeviceAttr :=
  attrs.find? (fun a => a.name == nm)

/-- Modelled from the spec: a read dispatched by name; an absent name
fails with -ENOENT before any accessor is considered. -/
def sysfs_read (attrs : List DeviceAttr) (k : Kobject) (nm : String) : Except Int String :=
  match sysfs_lookup attrs nm with
  | none => .error (-enoent)
  | some a => btrfs_device_attr_show_v2 k a

/-- Modelled from the spec: a write dispatched by name; an absent name
fails with -ENOENT before any accessor is considered. -/
def sysfs_write (attrs : List DeviceAttr) (k : Kobject) (nm : String) (buf : String) :
    Except Int Int :=
  match sysfs_lookup attrs nm with
  | none => .error (-enoent)
  | some a => btrfs_device_attr_store_v2 k a buf

/-- Translation of the strsep loop of the first-design btrfs_create_device:
for(ptr=device_name; (curr=strsep(&ptr,"/"))!=NULL; prev=curr);
After the loop prev holds the characters after the final separator, which
this recursion accumulates (acc is the token being built, reset at each
separator). -/
def strsepLast : List Char → List Char → List Char
  | [], acc => acc.reverse
  | c :: cs, acc => if c = '/' then strsepLast cs [] else strsepLast cs (c :: acc)

/-- Device-name derivation of the first-design btrfs_create_device:
reduce /dev/<device_name> to <device_name>. -/
def deriveDeviceName (s : String) : String := String.mk (strsepLast s.data [])

/-- Translation of the first-design btrfs_create_device name handling:
the caller string is copied into a fixed char device_name[64] buffer by an
unchecked strcpy, so the operation is defined only when the string plus
its terminating NUL fits in 64 bytes (fallible code returns Option); the
entry name is then derived by the strsep loop. -/
def btrfs_create_device_v1 (devName : String) : Option String :=
  if devName.length + 1 ≤ 64 then some (deriveDeviceName devName) else none

/-- Translation of kobject_get: increments the shared reference count. -/
def kobject_get (k : Kobject) : Kobject := { k with refcount := k.refcount + 1 }

/-- Translation of btrfs_create_device of the second design.  The
namespace (children of the devices directory) is a list of registered
names; kobject_init_and_add is modelled from the spec as: initialization
marks the kobject initialized with one reference, and the add step fails
on a name collision, in which case the source drops the reference
(kobject_put) and returns -EINVAL.  Returns the updated kobject, the
updated namespace and the C return value. -/
def btrfs_create_device_v2 (k : Kobject) (ns : List String) (label : String) :
    Kobject × List String × Int :=
  if k.state_initialized then (kobject_get k, ns, 0)
  else if label ∈ ns then
    ({ k with state_initialized := true, refcount := 0 }, ns, -einval)
  else
    ({ k with state_initialized := true, refcount := 1 }, label :: ns, 0)

/-- Outcome of btrfs_static_init_sysfs (second design): the C return value
and the arguments of the btrfs_kobject_destroy calls executed by the goto
rollback chain, in order (none is a NULL btrfs_kobject pointer). -/
structure InitTrace where
  ret : Int
  destroys : List (Option String)
deriving DecidableEq

/-- Translation of btrfs_static_init_sysfs (second design), parameterized
by which btrfs_kobject_create calls succeed (create returns NULL on
allocation or registration failure after releasing the partial node).
The goto chain is transcribed literally: a failure of health jumps to
btrfs_health_error, which destroys the current (NULL) value of
btrfs_health and returns; a failure of info jumps to btrfs_info_error,
which destroys the NULL btrfs_info and then the live btrfs_health. -/
def btrfs_static_init_sysfs (ok : String → Bool) : InitTrace :=
  let devices : Option String := if ok "devices" then some "devices" else none
  match devices with
  | none => ⟨-einval, []⟩
  | some _ =>
    let health : Option String := if ok "health" then some "health" else none
    match health with
    | none => ⟨-einval, [none]⟩
    | some h =>
      let info : Option String := if ok "info" then some "info" else none
      match info with
      | none => ⟨-einval, [none, some h]⟩
      | some _ => ⟨0, []⟩

/-- Actions a ktype release callback can perform, tagged with the node it
acts on. -/
inductive RelAction where
  | put : Nat → RelAction
  | free : Nat → RelAction
  | complete : Nat → RelAction
deriving DecidableEq

/-- Translation of btrfs_kobject_release of the first design: signals the
btrfs_kobj_unregister completion of the node being released. -/
def btrfs_kobject_release_v1 (k : Nat) : List RelAction := [.complete k]

/-- Translation of btrfs_device_release of the first design: signals the
btrfs_device_unregister completion of the device being released. -/
def btrfs_device_release_v1 (k : Nat) : List RelAction := [.complete k]

/-- Translation of btrfs_kobject_release of the second design: kfree of
the dynamically allocated btrfs_kobject. -/
def btrfs_kobject_release_v2 (k : Nat) : List RelAction := [.free k]

/-- Translation of btrfs_device_release of the second design: calls
kobject_put on the very kobject whose reference count just reached zero. -/
def btrfs_device_release_v2 (k : Nat) : List RelAction := [.put k]

/-- Steps taken by a teardown entry point, in program order. -/
inductive KillStep where
  | put
  | waitCompletion
deriving DecidableEq

/-- Translation of btrfs_kill_device of the first design: kobject_put then
wait_for_completion(&device->btrfs_device_unregister). -/
def btrfs_kill_device_v1_steps : List KillStep := [.put, .waitCompletion]

/-- Translation of btrfs_kill_device of the second design: a single
kobject_put, nothing else. -/
def btrfs_kill_device_v2_steps : List KillStep := [.put]

/-- Translation of btrfs_kobject_destroy of the first design: kobject_put
then wait_for_completion(&btrfs_kobj->btrfs_kobj_unregister). -/
def btrfs_kobject_destroy_v1_steps : List KillStep := [.put, .waitCompletion]

/-- Translation of btrfs_kobject_destroy of the second design: a single
kobject_put, nothing else. -/
def btrfs_kobject_destroy_v2_steps : List KillStep := [.put]

/-- An entry point blocks when its step sequence contains a
wait_for_completion. -/
def blocksCaller (t : List KillStep) : Bool := t.contains .waitCompletion

/- Teardown protocol.  Modelled from the spec: kobject reference counting
(kref) and completions are kernel primitives outside the excerpt.  Per the
spec, each in-flight dispatch holds a reference on the node, the release
callback runs exactly when the count reaches zero, and (first design) it
fires the teardown completion that btrfs_kobject_destroy waits on.  The
protocol is a transition system over an interleaving of reader arrivals,
reader completions and the destroy entry point. -/

/-- Events of the teardown protocol. -/
inductive TEvent where
  | readerStart
  | readerDone
  | destroyCall
  | destroyRet
deriving DecidableEq

/-- Protocol state: pending counts in-flight dispatches, refs the node
reference count, releases how many times the ktype release callback (which
fires the completion in the first design) has run. -/
structure NodeState where
  pending : Nat
  refs : Nat
  destroyCalled : Bool
  destroyReturned : Bool
  releases : Nat
deriving DecidableEq

/-- Translation of kobject_put: drop one reference; when the count reaches
zero the ktype release callback runs. -/
def putRef (s : NodeState) : NodeState :=
  { s with refs := s.refs - 1,
           releases := if s.refs - 1 = 0 then s.releases + 1 else s.releases }

/-- One protocol step.  waits selects the design: the first design's
btrfs_kobject_destroy returns only after the completion has been fired
(waits = true); the second design's returns right after its kobject_put
(waits = false).  A step that is not enabled yields none. -/
def step (waits : Bool) (s : NodeState) : TEvent → Option NodeState
  | .readerStart =>
      if s.destroyCalled = true then none
      else some { s with pending := s.pending + 1, refs := s.refs + 1 }
  | .readerDone =>
      if s.pending = 0 then none
      else some (putRef { s with pending := s.pending - 1 })
  | .destroyCall =>
      if s.destroyCalled = true then none
      else some (putRef { s with destroyCalled := true })
  | .destroyRet =>
      if s.destroyCalled = true ∧ s.destroyReturned = false ∧
         (waits = false ∨ s.releases ≠ 0)
      then some { s with destroyReturned := true }
      else none

/-- Execution of a sequence of protocol events. -/
def run (waits : Bool) : List TEvent → NodeState → Option NodeState
  | [], s => some s
  | e :: es, s =>
      match step waits s e with
      | none => none
      | some s2 => run waits es s2

/-- A registry-owned node with n dispatches in flight: the registry holds
one reference and each in-flight reader holds one. -/
def initState (n : Nat) : NodeState :=
  ⟨n, n + 1, false, false, 0⟩

/-- Protocol invariant maintained by every step. -/
def TSInv (waits : Bool) (s : NodeState) : Prop :=
  (s.destroyCalled = true → s.refs = s.pending) ∧
  (s.destroyCalled = false → s.refs = s.pending + 1) ∧
  (s.refs = 0 → s.releases = 1) ∧
  (s.refs ≠ 0 → s.releases = 0) ∧
  (s.destroyReturned = true → s.destroyCalled = true) ∧
  (s.destroyReturned = true → waits = true → s.releases = 1)

theorem TSInv_mk (waits : Bool) (p r : Nat) (dc dr : Bool) (rel : Nat) :
    TSInv waits ⟨p, r, dc, dr, rel⟩ ↔
      ((dc = true → r = p) ∧ (dc = false → r = p + 1) ∧ (r = 0 → rel = 1) ∧
       (r ≠ 0 → rel = 0) ∧ (dr = true → dc = true) ∧
       (dr = true → waits = true → rel = 1)) :=
  Iff.rfl

theorem putRef_mk (p r : Nat) (dc dr : Bool) (rel : Nat) :
    putRef ⟨p, r, dc, dr, rel⟩ =
      ⟨p, r - 1, dc, dr, if r - 1 = 0 then rel + 1 else rel⟩ :=
  rfl

theorem step_preserves (waits : Bool) (s s2 : NodeState) (e : TEvent)
    (hstep : step waits s e = some s2) (hinv : TSInv waits s) : TSInv waits s2 := by
  obtain ⟨p, r, dc, dr, rel⟩ := s
  rw [TSInv_mk] at hinv
  obtain ⟨h1, h2, h3, h4, h5, h6⟩ := hinv
  cases e with
  | readerStart =>
    simp only [step] at hstep
    split at hstep
    · exact Option.noConfusion hstep
    · rename_i hdc
      injection hstep with hs2
      subst hs2
      have hdc2 : dc = false := by
        cases dc
        · rfl
        · exact absurd rfl hdc
      subst hdc2
      have hr : r = p + 1 := h2 rfl
      rw [TSInv_mk]
      refine ⟨?_, ?_, ?_, ?_, ?_, ?_⟩
      · intro h; exact Bool.noConfusion h
      · intro _; omega
      · intro h0; omega
      · intro _; exact h4 (by omega)
      · intro hdr; exact h5 hdr
      · intro hdr hw; exact h6 hdr hw
  | readerDone =>
    simp only [step] at hstep
    split at hstep
    · exact Option.noConfusion hstep
    · rename_i hp
      injection hstep with hs2
      subst hs2
      rw [putRef_mk, TSInv_mk]
      by_cases hdc : dc = true
      · have hr : r = p := h1 hdc
        refine ⟨?_, ?_, ?_, ?_, ?_, ?_⟩
        · intro _; omega
        · intro h; rw [h] at hdc; exact Bool.noConfusion hdc
        · intro h0
          have hrel : rel = 0 := h4 (by omega)
          rw [if_pos h0, hrel]
        · intro hne
          rw [if_neg hne]
          exact h4 (by omega)
        · exact h5
        · intro hdr hw
          have hrel1 : rel = 1 := h6 hdr hw
          have hrel0 : rel = 0 := h4 (by omega)
          omega
      · have hdc2 : dc = false := by
          cases dc
          · rfl
          · exact absurd rfl hdc
        subst hdc2
        have hr : r = p + 1 := h2 rfl
        refine ⟨?_, ?_, ?_, ?_, ?_, ?_⟩
        · intro h; exact Bool.noConfusion h
        · intro _; omega
        · intro h0
          have hrel : rel = 0 := h4 (by omega)
          rw [if_pos h0, hrel]
        · intro hne
          rw [if_neg hne]
          exact h4 (by omega)
        · exact h5
        · intro hdr
          exact absurd (h5 hdr) (by simp)
  | destroyCall =>
    simp only [step] at hstep
    split at hstep
    · exact Option.noConfusion hstep
    · rename_i hdc
      injection hstep with hs2
      subst hs2
      have hdc2 : dc = false := by
        cases dc
        · rfl
        · exact absurd rfl hdc
      subst hdc2
      have hr : r = p + 1 := h2 rfl
      rw [putRef_mk, TSInv_mk]
      refine ⟨?_, ?_, ?_, ?_, ?_, ?_⟩
      · intro _; omega
      · intro h; exact Bool.noConfusion h
      · intro h0
        have hrel : rel = 0 := h4 (by omega)
        rw [if_pos h0, hrel]
      · intro hne
        rw [if_neg hne]
        exact h4 (by omega)
      · intro _; rfl
      · intro hdr
        exact absurd (h5 hdr) (by simp)
  | destroyRet =>
    simp only [step] at hstep
    split at hstep
    · rename_i hguard
      obtain ⟨hdc, hdr, hw⟩ := hguard
      injection hstep with hs2
      subst hs2
      rw [TSInv_mk]
      refine ⟨fun _ => h1 hdc, ?_, h3, h4, fun _ => hdc, ?_⟩
      · intro h; rw [h] at hdc; exact Bool.noConfusion hdc
      · intro _ hwT
        have hrelne : rel ≠ 0 := by
          cases hw with
          | inl h => rw [hwT] at h; exact Bool.noConfusion h
          | inr h => exact h
        by_cases hr0 : r = 0
        · exact h3 hr0
        · exact absurd (h4 hr0) hrelne
    · exact Option.noConfusion hstep

theorem run_inv (waits : Bool) :
    ∀ (es : List TEvent) (s s2 : NodeState),
      run waits es s = some s2 → TSInv waits s → TSInv waits s2 := by
  intro es
  induction es with
  | nil =>
    intro s s2 h hi
    simp only [run] at h
    injection h with h2
    subst h2
    exact hi
  | cons e es ih =>
    intro s s2 h hi
    simp only [run] at h
    cases hs : step waits s e with
    | none => rw [hs] at h; exact Option.noConfusion h
    | some s1 =>
      rw [hs] at h
      exact ih s1 s2 h (step_preserves waits s s1 e hs hi)

theorem initState_inv (waits : Bool) (n : Nat) : TSInv waits (initState n) := by
  rw [initState, TSInv_mk]
  refine ⟨?_, ?_, ?_, ?_, ?_, ?_⟩
  · intro h; exact Bool.noConfusion h
  · intro _; rfl
  · intro h0; omega
  · intro _; rfl
  · intro h; exact Bool.noConfusion h
  · intro h; exact Bool.noConfusion h

theorem strsepLast_append (l₁ l₂ : List Char) :
    ∀ acc, strsepLast (l₁ ++ '/' :: l₂) acc = strsepLast l₂ [] := by
  induction l₁ with
  | nil =>
    intro acc
    simp [strsepLast]
  | cons c cs ih =>
    intro acc
    by_cases hc : c = '/'
    · subst hc
      simp only [List.cons_append, strsepLast, if_pos rfl]
      exact ih []
    · simp only [List.cons_append, strsepLast, if_neg hc]
      exact ih (c :: acc)

theorem strsepLast_no_sep (l : List Char) :
    ∀ acc, '/' ∉ l → strsepLast l acc = acc.reverse ++ l := by
  induction l with
  | nil =>
    intro acc _
    simp [strsepLast]
  | cons c cs ih =>
    intro acc h
    have hc : ¬ c = '/' := by
      intro e
      exact h (by rw [e]; exact List.mem_cons_self _ _)
    have h2 : '/' ∉ cs := fun hm => h (List.mem_cons_of_mem c hm)
    simp only [strsepLast, if_neg hc]
    rw [ih (c :: acc) h2]
    simp

/-- Claim C1 (amended, first design): in every reachable state of the
teardown protocol of the first-design btrfs_kobject_destroy (kobject_put
followed by wait_for_completion), (i) if the destroy caller has been
unblocked, then every in-flight dispatch has completed, the release
callback (which fires the completion) has run exactly once, and destroy
was called; (ii) the release callback never runs while a dispatch is in
flight, so the backing storage is never freed under a live reader; and
(iii) the release callback runs at most once. -/
theorem btrfs_kobject_destroy_v1_teardown_ordering
    (n : Nat) (es : List TEvent) (s : NodeState)
    (h : run true es (initState n) = some s) :
    (s.destroyReturned = true →
      s.pending = 0 ∧ s.releases = 1 ∧ s.destroyCalled = true) ∧
    (s.releases = 1 → s.pending = 0) ∧
    s.releases ≤ 1 := by
  have hinv := run_inv true es (initState n) s h (initState_inv true n)
  unfold TSInv at hinv
  obtain ⟨h1, h2, h3, h4, h5, h6⟩ := hinv
  refine ⟨?_, ?_, ?_⟩
  · intro hret
    have hdc := h5 hret
    have hrel : s.releases = 1 := h6 hret rfl
    have hr0 : s.refs = 0 := by
      by_cases hr : s.refs = 0
      · exact hr
      · have := h4 hr; omega
    have hpr := h1 hdc
    exact ⟨by omega, hrel, hdc⟩
  · intro hrel
    have hr0 : s.refs = 0 := by
      by_cases hr : s.refs = 0
      · exact hr
      · have := h4 hr; omega
    by_cases hdc : s.destroyCalled = true
    · have := h1 hdc; omega
    · have hf : s.destroyCalled = false := by
        cases hb : s.destroyCalled
        · rfl
        · exact absurd hb hdc
      have := h2 hf; omega
  · by_cases hr : s.refs = 0
    · have := h3 hr; omega
    · have := h4 hr; omega

/-- Claim C1 witness: concrete execution with one reader in flight; the
destroy call drops the registry reference, the reader finishes (dropping
the count to zero and firing the release), and only then does the wait
return. -/
theorem btrfs_kobject_destroy_v1_teardown_witness :
    ((⟨0, 0, true, true, 1⟩ : NodeState).destroyReturned = true →
      (⟨0, 0, true, true, 1⟩ : NodeState).pending = 0 ∧
      (⟨0, 0, true, true, 1⟩ : NodeState).releases = 1 ∧
      (⟨0, 0, true, true, 1⟩ : NodeState).destroyCalled = true) ∧
    ((⟨0, 0, true, true, 1⟩ : NodeState).releases = 1 →
      (⟨0, 0, true, true, 1⟩ : NodeState).pending = 0) ∧
    (⟨0, 0, true, true, 1⟩ : NodeState).releases ≤ 1 :=
  btrfs_kobject_destroy_v1_teardown_ordering 1
    [TEvent.destroyCall, TEvent.readerDone, TEvent.destroyRet]
    ⟨0, 0, true, true, 1⟩ (by decide)

/-- Claim C1 counterexample: in the second design btrfs_kobject_destroy is
a bare kobject_put with no wait, so with one reader in flight the destroy
caller is unblocked (destroyReturned) while the reader is still pending
(pending = 1) and before the release callback has run (releases = 0) —
contradicting the claim that destroy blocks until all in-flight accesses
complete and that the destroy callback runs before the caller resumes. -/
theorem btrfs_kobject_destroy_v2_counterexample :
    run false [TEvent.destroyCall, TEvent.destroyRet] (initState 1) =
      some ⟨1, 1, true, true, 0⟩ ∧
    (⟨1, 1, true, true, 0⟩ : NodeState).destroyReturned = true ∧
    (⟨1, 1, true, true, 0⟩ : NodeState).pending = 1 ∧
    (⟨1, 1, true, true, 0⟩ : NodeState).releases = 0 := by
  refine ⟨by decide, rfl, rfl, rfl⟩

/-- Helper for claim C2: every attribute of the first-design device table
is wired to btrfs_device_show, so a read renders the 32-bit field at the
attribute offset through the signed int formatter. -/
theorem btrfs_device_offset_attr_show_eq (d : BtrfsDevice) (a : DeviceOffsetAttr)
    (ha : a ∈ btrfs_device_offset_attrs) :
    btrfs_device_attr_show_v1 a d = .ok (sprintfD (intOfU32 (readField d a.offset))) := by
  simp only [btrfs_device_offset_attrs, List.mem_cons, List.not_mem_nil, or_false] at ha
  rcases ha with rfl | rfl | rfl | rfl | rfl <;> rfl

theorem intOfU32_ofNat (v : Nat) (h : v < 2 ^ 31) : intOfU32 v = (v : Int) := by
  unfold intOfU32
  have hlt : v % u32 = v := Nat.mod_eq_of_lt (by unfold u32; omega)
  rw [hlt, if_pos h]

theorem sprintfD_ofNat (v : Nat) : sprintfD ((v : Nat) : Int) = Nat.repr v ++ "\n" := rfl

/-- Claim C2 (amended): reading an offset-based counter attribute returns
the field at the attribute offset formatted as a SIGNED 32-bit decimal
(sprintf %d) followed by a single newline; this equals the unsigned
decimal representation exactly for field values below 2^31 (covering 0
and 1), but not at the maximum unsigned value. -/
theorem btrfs_device_offset_attr_show_decimal :
    (∀ (d : BtrfsDevice) (a : DeviceOffsetAttr), a ∈ btrfs_device_offset_attrs →
        btrfs_device_attr_show_v1 a d =
          .ok (sprintfD (intOfU32 (readField d a.offset)))) ∧
    (∀ (d : BtrfsDevice) (a : DeviceOffsetAttr), a ∈ btrfs_device_offset_attrs →
        readField d a.offset < 2 ^ 31 →
        btrfs_device_attr_show_v1 a d =
          .ok (Nat.repr (readField d a.offset) ++ "\n")) := by
  refine ⟨fun d a ha => btrfs_device_offset_attr_show_eq d a ha, fun d a ha hv => ?_⟩
  rw [btrfs_device_offset_attr_show_eq d a ha, intOfU32_ofNat _ hv, sprintfD_ofNat]

/-- Claim C2 witness: a counter holding 1 reads back as "1" plus newline. -/
theorem btrfs_device_offset_attr_show_decimal_witness :
    btrfs_device_attr_show_v1 btrfs_dev_attr_cnt_read_io_errs ⟨0, 1, 0, 0, 0⟩ =
      .ok (Nat.repr (readField ⟨0, 1, 0, 0, 0⟩ btrfs_dev_attr_cnt_read_io_errs.offset) ++
        "\n") :=
  btrfs_device_offset_attr_show_decimal.2 ⟨0, 1, 0, 0, 0⟩ btrfs_dev_attr_cnt_read_io_errs
    (List.mem_cons_of_mem _ (List.mem_cons_self _ _)) (by decide)

/-- Claim C2 counterexample: with the write-error counter holding the
maximum unsigned 32-bit value 4294967295, the read produces "-1" plus
newline (the signed reinterpretation), not the unsigned decimal
"4294967295" plus newline demanded by the claim. -/
theorem btrfs_device_show_signed_at_max_counterexample :
    btrfs_device_attr_show_v1 btrfs_dev_attr_cnt_write_io_errs ⟨4294967295, 0, 0, 0, 0⟩ =
      .ok "-1\n" ∧
    Nat.repr ((⟨4294967295, 0, 0, 0, 0⟩ : BtrfsDevice).cnt_write_io_errs) ++ "\n" =
      "4294967295\n" ∧
    (("-1\n" : String) == "4294967295\n") = false := by
  refine ⟨rfl, rfl, by decide⟩

/-- Claim C3: a dispatched access against an attribute whose accessor
pointer for that direction is NULL returns -EIO without invoking any
function (the accessor is only called in the branch where it exists);
this applies to both designs and both attribute families, and the
placeholder attributes uuid, label, dummy, dummy1, num_devices all have a
NULL show accessor while their permission bits mark them readable. -/
theorem dispatch_missing_accessor_eio :
    (∀ (k : BtrfsKobject) (a : KobjAttr), a.showFn = none →
        btrfs_kobject_attr_show k a = .error (-eio)) ∧
    (∀ (k : BtrfsKobject) (a : KobjAttr) (buf : String), a.storeFn = none →
        btrfs_kobject_attr_store k a buf = .error (-eio)) ∧
    (∀ (k : Kobject) (a : DeviceAttr), a.showFn = none →
        btrfs_device_attr_show_v2 k a = .error (-eio)) ∧
    (∀ (k : Kobject) (a : DeviceAttr) (buf : String), a.storeFn = none →
        btrfs_device_attr_store_v2 k a buf = .error (-eio)) ∧
    (∀ (d : BtrfsDevice) (a : DeviceOffsetAttr), a.showFn = none →
        btrfs_device_attr_show_v1 a d = .error (-eio)) ∧
    (∀ (d : BtrfsDevice) (a : DeviceOffsetAttr) (buf : String), a.storeFn = none →
        btrfs_device_attr_store_v1 a d buf = .error (-eio)) ∧
    (btrfs_attr_uuid.showFn = none ∧ readable btrfs_attr_uuid.mode = true) ∧
    (btrfs_attr_label.showFn = none ∧ readable btrfs_attr_label.mode = true) ∧
    (btrfs_attr_dummy.showFn = none ∧ readable btrfs_attr_dummy.mode = true) ∧
    (btrfs_attr_dummy1.showFn = none ∧ readable btrfs_attr_dummy1.mode = true) ∧
    (btrfs_attr_num_devices.showFn = none ∧
      readable btrfs_attr_num_devices.mode = true) := by
  refine ⟨?_, ?_, ?_, ?_, ?_, ?_,
    ⟨rfl, rfl⟩, ⟨rfl, rfl⟩, ⟨rfl, rfl⟩, ⟨rfl, rfl⟩, ⟨rfl, rfl⟩⟩
  · intro k a h; unfold btrfs_kobject_attr_show; rw [h]
  · intro k a buf h; unfold btrfs_kobject_attr_store; rw [h]
  · intro k a h; unfold btrfs_device_attr_show_v2; rw [h]
  · intro k a buf h; unfold btrfs_device_attr_store_v2; rw [h]
  · intro d a h; unfold btrfs_device_attr_show_v1; rw [h]
  · intro d a buf h; unfold btrfs_device_attr_store_v1; rw [h]

/-- Claim C3 witness: reads of the readable placeholder attributes dummy
and uuid, and a write to label, all fail with -EIO. -/
theorem dispatch_missing_accessor_eio_witness :
    btrfs_kobject_attr_show ⟨⟨true, 1⟩⟩ btrfs_attr_dummy = .error (-eio) ∧
    btrfs_device_attr_show_v2 ⟨true, 1⟩ btrfs_attr_uuid = .error (-eio) ∧
    btrfs_device_attr_store_v2 ⟨true, 1⟩ btrfs_attr_label "0" = .error (-eio) :=
  ⟨dispatch_missing_accessor_eio.1 ⟨⟨true, 1⟩⟩ btrfs_attr_dummy rfl,
   dispatch_missing_accessor_eio.2.2.1 ⟨true, 1⟩ btrfs_attr_uuid rfl,
   dispatch_missing_accessor_eio.2.2.2.1 ⟨true, 1⟩ btrfs_attr_label "0" rfl⟩

/-- Claim C4: if the backing kobject is already initialized, the
second-design btrfs_create_device only takes a reference (kobject_get) and
returns 0, leaving the namespace untouched; after a successful first
registration the kobject is initialized, so a second call with the same
object is exactly this no-op-plus-increment. -/
theorem btrfs_create_device_v2_idempotent :
    (∀ (k : Kobject) (ns : List String) (label : String),
        k.state_initialized = true →
        btrfs_create_device_v2 k ns label = (kobject_get k, ns, 0)) ∧
    (∀ (k : Kobject) (ns : List String) (label : String),
        k.state_initialized = false → label ∉ ns →
        btrfs_create_device_v2 k ns label =
          ({ k with state_initialized := true, refcount := 1 }, label :: ns, 0) ∧
        btrfs_create_device_v2 { k with state_initialized := true, refcount := 1 }
            (label :: ns) label =
          ({ k with state_initialized := true, refcount := 2 }, label :: ns, 0)) := by
  constructor
  · intro k ns label h
    simp [btrfs_create_device_v2, h]
  · intro k ns label h hmem
    constructor
    · simp [btrfs_create_device_v2, h, hmem]
    · simp [btrfs_create_device_v2, kobject_get]

/-- Claim C4 witness: attaching an already-initialized device kobject a
second time only increments the reference count. -/
theorem btrfs_create_device_v2_idempotent_witness :
    btrfs_create_device_v2 ⟨true, 1⟩ ["sdb"] "sda1" = (kobject_get ⟨true, 1⟩, ["sdb"], 0) :=
  btrfs_create_device_v2_idempotent.1 ⟨true, 1⟩ ["sdb"] "sda1" rfl

/-- Helper for claim C5: a scan with exact name equality over a table none
of whose entries carries the requested name yields no attribute. -/
theorem lookupNoneOfNames (attrs : List DeviceAttr) (nm : String)
    (h : ∀ a ∈ attrs, a.name ≠ nm) : sysfs_lookup attrs nm = none := by
  unfold sysfs_lookup
  induction attrs with
  | nil => rfl
  | cons x xs ih =>
    have hx : (x.name == nm) = false := by
      have := h x (List.mem_cons_self _ _)
      simp [this]
    rw [List.find?]
    rw [hx]
    exact ih (fun a ha => h a (List.mem_cons_of_mem _ ha))

/-- Claim C5: a read or write dispatched with a name that is not in the
device node type descriptor table fails with -ENOENT; the resolution is a
linear scan with exact (not partial) name equality performed before any
accessor is invoked. -/
theorem sysfs_dispatch_unknown_name_enoent
    (resolve : Kobject → BtrfsDevice) (k : Kobject) (nm : String) (buf : String)
    (h : ∀ a ∈ btrfs_device_default_attrs_v2 resolve, a.name ≠ nm) :
    sysfs_read (btrfs_device_default_attrs_v2 resolve) k nm = .error (-enoent) ∧
    sysfs_write (btrfs_device_default_attrs_v2 resolve) k nm buf = .error (-enoent) := by
  have hfind := lookupNoneOfNames (btrfs_device_default_attrs_v2 resolve) nm h
  constructor
  · unfold sysfs_read; rw [hfind]
  · unfold sysfs_write; rw [hfind]

/-- Claim C5 witness: the names foo and the strict prefix cnt (partial
match of the counter names) are both rejected with -ENOENT for read and
write. -/
theorem sysfs_dispatch_unknown_name_enoent_witness :
    (sysfs_read (btrfs_device_default_attrs_v2 (fun _ => ⟨0, 0, 0, 0, 0⟩)) ⟨true, 1⟩
        "foo" = .error (-enoent) ∧
     sysfs_write (btrfs_device_default_attrs_v2 (fun _ => ⟨0, 0, 0, 0, 0⟩)) ⟨true, 1⟩
        "foo" "1" = .error (-enoent)) ∧
    (sysfs_read (btrfs_device_default_attrs_v2 (fun _ => ⟨0, 0, 0, 0, 0⟩)) ⟨true, 1⟩
        "cnt" = .error (-enoent) ∧
     sysfs_write (btrfs_device_default_attrs_v2 (fun _ => ⟨0, 0, 0, 0, 0⟩)) ⟨true, 1⟩
        "cnt" "1" = .error (-enoent)) :=
  ⟨sysfs_dispatch_unknown_name_enoent _ _ _ _ (by decide),
   sysfs_dispatch_unknown_name_enoent _ _ _ _ (by decide)⟩

/-- Claim C6 (code bug evaluation): transcription of the goto rollback of
btrfs_static_init_sysfs.  If health creation fails after devices was
created, the error path destroys the NULL health handle (none) and never
destroys the created devices node; if info creation fails, it destroys the
NULL info handle and then health, again never rolling back devices.  The
claim (and spec) require every fixed node created so far to be rolled
back. -/
theorem btrfs_static_init_sysfs_rollback_bug :
    btrfs_static_init_sysfs (fun nm => nm != "health") = ⟨-einval, [none]⟩ ∧
    ((btrfs_static_init_sysfs (fun nm => nm != "health")).destroys.contains
      (some "devices")) = false ∧
    btrfs_static_init_sysfs (fun nm => nm != "info") =
      ⟨-einval, [none, some "health"]⟩ ∧
    ((btrfs_static_init_sysfs (fun nm => nm != "info")).destroys.contains
      (some "devices")) = false := by
  refine ⟨by decide, by decide, by decide, by decide⟩

/-- Claim C7: the first-design btrfs_create_device derives the namespace
entry name with a strsep loop keeping the characters after the final
separator: /dev/sda1 yields sda1, a string with no separator is used
verbatim, and in general the entry name is the suffix after the last
slash; the derived name is what create returns for any in-bounds input. -/
theorem btrfs_create_device_v1_name_derivation :
    btrfs_create_device_v1 "/dev/sda1" = some "sda1" ∧
    (∀ s : String, '/' ∉ s.data → deriveDeviceName s = s) ∧
    (∀ l₁ l₂ : List Char, '/' ∉ l₂ →
        deriveDeviceName (String.mk (l₁ ++ '/' :: l₂)) = String.mk l₂) ∧
    (∀ s : String, s.length + 1 ≤ 64 →
        btrfs_create_device_v1 s = some (deriveDeviceName s)) := by
  refine ⟨by decide, ?_, ?_, ?_⟩
  · intro s h
    unfold deriveDeviceName
    rw [strsepLast_no_sep s.data [] h]
    simp only [List.reverse_nil, List.nil_append]
  · intro l₁ l₂ h
    unfold deriveDeviceName
    rw [show (String.mk (l₁ ++ '/' :: l₂)).data = l₁ ++ '/' :: l₂ from rfl]
    rw [strsepLast_append l₁ l₂ []]
    rw [strsepLast_no_sep l₂ [] h]
    simp only [List.reverse_nil, List.nil_append]
  · intro s h
    unfold btrfs_create_device_v1
    rw [if_pos h]

/-- Claim C7 witness: sda1 has no separator and is used verbatim, and
create returns exactly the derived name for it. -/
theorem btrfs_create_device_v1_name_derivation_witness :
    deriveDeviceName "sda1" = "sda1" ∧
    btrfs_create_device_v1 "sda1" = some (deriveDeviceName "sda1") :=
  ⟨btrfs_create_device_v1_name_derivation.2.1 "sda1" (by decide),
   btrfs_create_device_v1_name_derivation.2.2.2 "sda1" (by decide)⟩

/-- Claim C8 (amended): the second-design btrfs_kill_device performs a
single kobject_put and returns without any wait; in the second design
btrfs_kobject_destroy does not block either, so no teardown entry point of
that design blocks (regardless of how many readers are in flight, the
destroy caller returns immediately after its put); in the first design
both btrfs_kill_device and btrfs_kobject_destroy do block on a
completion. -/
theorem btrfs_kill_device_nonblocking :
    btrfs_kill_device_v2_steps = [KillStep.put] ∧
    blocksCaller btrfs_kill_device_v2_steps = false ∧
    blocksCaller btrfs_kobject_destroy_v2_steps = false ∧
    btrfs_kill_device_v1_steps = [KillStep.put, KillStep.waitCompletion] ∧
    blocksCaller btrfs_kill_device_v1_steps = true ∧
    blocksCaller btrfs_kobject_destroy_v1_steps = true ∧
    (∀ n : Nat,
        run false [TEvent.destroyCall, TEvent.destroyRet] (initState n) =
          some ⟨n, n, true, true, if n = 0 then 1 else 0⟩) := by
  refine ⟨rfl, by decide, by decide, rfl, by decide, by decide, fun n => rfl⟩

/-- Claim C8 witness: with two readers in flight, the second-design
teardown returns immediately after its reference drop. -/
theorem btrfs_kill_device_nonblocking_witness :
    run false [TEvent.destroyCall, TEvent.destroyRet] (initState 2) =
      some ⟨2, 2, true, true, if 2 = 0 then 1 else 0⟩ :=
  btrfs_kill_device_nonblocking.2.2.2.2.2.2 2

/-- Claim C8 counterexample: the first-design btrfs_kill_device (also
cited by the claim) does not merely decrement and return: after its
kobject_put it executes wait_for_completion, i.e. it blocks; and the
second-design btrfs_kobject_destroy, claimed to be the only blocking
operation, performs no wait at all. -/
theorem btrfs_kill_device_v1_waits_counterexample :
    btrfs_kill_device_v1_steps = [KillStep.put, KillStep.waitCompletion] ∧
    blocksCaller btrfs_kill_device_v1_steps = true ∧
    blocksCaller btrfs_kobject_destroy_v2_steps = false := by
  refine ⟨rfl, by decide, by decide⟩

/-- Claim C9: the second-design btrfs_device_release, run when the
reference count of the device node reaches zero, frees nothing and signals
no completion; its sole action is a further kobject_put on the very node
being released, re-entering the reference-release path of an object whose
count already reached zero. -/
theorem btrfs_device_release_v2_self_put (k : Nat) :
    btrfs_device_release_v2 k = [RelAction.put k] ∧
    ((btrfs_device_release_v2 k).contains (RelAction.free k)) = false ∧
    ((btrfs_device_release_v2 k).contains (RelAction.complete k)) = false := by
  refine ⟨rfl, ?_, ?_⟩
  · simp [btrfs_device_release_v2, List.contains]
  · simp [btrfs_device_release_v2, List.contains]

/-- Claim C9 witness: instantiation at a concrete node. -/
theorem btrfs_device_release_v2_self_put_witness :
    btrfs_device_release_v2 7 = [RelAction.put 7] ∧
    ((btrfs_device_release_v2 7).contains (RelAction.free 7)) = false ∧
    ((btrfs_device_release_v2 7).contains (RelAction.complete 7)) = false :=
  btrfs_device_release_v2_self_put 7

/-- Claim C10: the first-design btrfs_create_device copies the caller
string into a fixed 64-byte buffer with an unchecked strcpy, so the
operation is defined exactly when the input including its terminating NUL
fits in 64 bytes. -/
theorem btrfs_create_device_v1_buffer_bound (s : String) :
    (btrfs_create_device_v1 s).isSome = true ↔ s.length + 1 ≤ 64 := by
  unfold btrfs_create_device_v1
  split
  · rename_i h; simp [h]
  · rename_i h; simp [h]

/-- Claim C10 witness: instantiation at a short and at an over-long
input. -/
theorem btrfs_create_device_v1_buffer_bound_witness :
    ((btrfs_create_device_v1 "sda1").isSome = true ↔
      ("sda1" : String).length + 1 ≤ 64) :=
  btrfs_create_device_v1_buffer_bound "sda1"

end BtrfsSysfs
